import Mathlib

/-!
Verification of the single-page SEO analyzer (`seo_analyzer.py`).

The development shallow-embeds the analyzer's pure pipeline:
text preprocessing and keyword extraction (`extract_keywords`),
extraction of page data from a parsed document (`analyze_page`),
the issue/recommendation engine (`generate_seo_issues`), the report
and its score (`generate_report`), and the top-level run including
the serialized JSON artifact (`main_run`).

HTML parsing itself (BeautifulSoup) is not modelled: a `Doc` value
abstracts the parsed tree, carrying exactly the values the source
reads off the soup (first title element's text, first meta
description's content attribute, heading texts, img attributes,
the visible text after script/style removal, and the count of
JSON-LD script blocks).
-/

namespace SEO

/-- Python truthiness of an optional string (`None` and `""` are falsy). -/
def pyFalsyOptStr : Option String → Bool
  | none => true
  | some s => s == ""

/-- Python regex `\s` over the ASCII range (space, tab, newline, CR, VT, FF).
The source only ever feeds text through this class, and every input used in
the concrete theorems below is ASCII. -/
def isPySpace (c : Char) : Bool :=
  c == ' ' || c == '\t' || c == '\n' || c == '\r' || c == Char.ofNat 11 || c == Char.ofNat 12

/-- Python regex word character `\w` over the ASCII range (letters, digits, underscore). -/
def isWordChar (c : Char) : Bool := c.isAlphanum || c == '_'

/-- Lowercase ASCII letter, the character class `[a-z]` of the tokenizing regex. -/
def isLowerAZ (c : Char) : Bool := 'a' ≤ c && c ≤ 'z'

/-- The backspace character `\x08`. The source builds its tokenizing pattern as
`r'\b[a-z]{' + str(min_length) + ',}\b'`: the final `'\b'` sits in a non-raw
string literal, so it denotes this control character, not a word boundary. -/
def backspace : Char := Char.ofNat 8

/-- One step of `re.sub(r'<[^>]+>', ' ', text)`: each leftmost non-overlapping
match `<` + (one or more non-`>` characters) + `>` is replaced by one space.
`fuel` only bounds recursion; it starts at the list length and each step
consumes at least one character. -/
def stripTagsGo : Nat → List Char → List Char
  | 0, _ => []
  | _, [] => []
  | fuel + 1, c :: rest =>
    if c == '<' then
      let run := rest.takeWhile (fun d => d != '>')
      match rest.dropWhile (fun d => d != '>') with
      | '>' :: tail =>
        if run.isEmpty then c :: stripTagsGo fuel rest
        else ' ' :: stripTagsGo fuel tail
      | _ => c :: stripTagsGo fuel rest
    else c :: stripTagsGo fuel rest

/-- The tag-stripping pass `re.sub(r'<[^>]+>', ' ', text)` of `extract_keywords`. -/
def stripTags (cs : List Char) : List Char := stripTagsGo cs.length cs

/-- The whitespace-collapsing pass `re.sub(r'\s+', ' ', text)`: every maximal
run of whitespace becomes a single space. -/
def collapseWs : List Char → List Char
  | [] => []
  | [c] => if isPySpace c then [' '] else [c]
  | c :: d :: rest =>
    if isPySpace c then
      if isPySpace d then collapseWs (d :: rest) else ' ' :: collapseWs (d :: rest)
    else c :: collapseWs (d :: rest)

/-- Python `str.lower()` (ASCII case mapping). -/
def pyLower (cs : List Char) : List Char := cs.map Char.toLower

/-- Scanner for `re.findall` with the pattern the source actually compiles:
word boundary, then at least `minLen` lowercase letters, then a literal
backspace character (see `backspace`). The boolean argument records whether
the previous character was a word character (for the `\b` check). A match
consumes the whole matched text, backspace included, which is also what
`findall` returns for a pattern without groups. -/
def findTokensGo (minLen : Nat) : Nat → Bool → List Char → List (List Char)
  | 0, _, _ => []
  | _, _, [] => []
  | fuel + 1, prevWord, c :: rest =>
    if !prevWord && isLowerAZ c then
      let run := c :: rest.takeWhile isLowerAZ
      let after := rest.dropWhile isLowerAZ
      if minLen ≤ run.length && after.head? == some backspace then
        (run ++ [backspace]) :: findTokensGo minLen fuel false after.tail
      else
        findTokensGo minLen fuel true after
    else
      findTokensGo minLen fuel (isWordChar c) rest

/-- `re.findall(r'\b[a-z]{min_length,}' + '\x08', text)` as compiled by the source. -/
def findTokens (minLen : Nat) (cs : List Char) : List (List Char) :=
  findTokensGo minLen cs.length false cs

/-- The fixed stop-word set of `extract_keywords`. -/
def stop_words : List String :=
  [ "the", "a", "an", "and", "or", "but", "in", "on", "at", "to", "for"
  , "of", "with", "by", "is", "are", "was", "were", "be", "been", "have"
  , "has", "had", "do", "does", "did", "will", "would", "should", "could"
  , "can", "may", "might", "this", "that", "these", "those", "i", "you"
  , "he", "she", "it", "we", "they", "me", "him", "her", "us", "them"
  , "get", "go", "come", "see", "know", "think", "want", "need", "use"
  , "work", "call", "try", "ask", "feel", "become", "leave", "put" ]

/-- `collections.Counter` built from a word list: counts with keys in first
occurrence order (Python dicts preserve insertion order). -/
def bumpCount : List (String × Nat) → String → List (String × Nat)
  | [], w => [(w, 1)]
  | (k, n) :: rest, w =>
    if k == w then (k, n + 1) :: rest else (k, n) :: bumpCount rest w

/-- Counter construction over the filtered word list. -/
def countWords (ws : List String) : List (String × Nat) := ws.foldl bumpCount []

/-- Stable insertion for descending-count order: `x` goes after every entry
with count greater than or equal to its own. -/
def insertByCount (x : String × Nat) : List (String × Nat) → List (String × Nat)
  | [] => [x]
  | y :: ys => if y.2 < x.2 then x :: y :: ys else y :: insertByCount x ys

/-- `Counter.most_common`'s ordering: descending count, ties in first
occurrence order (Python's sort is stable). -/
def sortByCountDesc (l : List (String × Nat)) : List (String × Nat) :=
  l.foldl (fun acc x => insertByCount x acc) []

/-- `SEOAnalyzer.extract_keywords(text, min_length, max_keywords)`: strip
tag-like substrings, lowercase and collapse whitespace, tokenize with the
pattern as compiled (see `findTokens`), drop stop words, count, and return
the `max_keywords` most common terms. -/
def extract_keywords (text : String) (min_length max_keywords : Nat) : List (String × Nat) :=
  let t1 := stripTags text.toList
  let t2 := collapseWs (pyLower t1)
  let toks := findTokens min_length t2
  let words := (toks.map fun cs => String.mk cs).filter fun w => !(stop_words.contains w)
  (sortByCountDesc (countWords words)).take max_keywords

/-- Python `str.split()` (no separator): maximal non-whitespace runs, with
leading/trailing whitespace ignored. Fuel starts at the list length. -/
def splitWsGo : Nat → List Char → List String
  | 0, _ => []
  | _, [] => []
  | fuel + 1, c :: rest =>
    if isPySpace c then splitWsGo fuel rest
    else
      String.mk (c :: rest.takeWhile (fun d => !isPySpace d)) ::
        splitWsGo fuel (rest.dropWhile fun d => !isPySpace d)

/-- Word splitting used for `word_count` (`len(text_content.split())`). -/
def pySplitWs (s : String) : List String := splitWsGo s.toList.length s.toList

/-- An `<img>` element as the source reads it: the raw `src` and `alt`
attributes, each absent or a string. -/
structure Img where
  srcAttr : Option String
  altAttr : Option String
deriving Repr, DecidableEq

/-- Abstraction of the parsed document tree (the BeautifulSoup object), carrying
exactly the values `analyze_page` reads off the soup. `titleText` is the first
`<title>` element's text (`none` when no such element exists);
`metaDescContent` and `metaKeywordsContent` are the `content` attributes of
the first matching `<meta>` tags (a found meta description tag is assumed to
carry a `content` attribute — on one without it, the Python raises a
`TypeError` at the `len` call, a case outside every claim); `h1`/`h2`/`h3`
are the headings' texts in document order; `textContent` is the document text
after `<script>`/`<style>` removal; `structuredDataCount` counts the
`<script type="application/ld+json">` elements. -/
structure Doc where
  titleText : Option String
  metaDescContent : Option String
  metaKeywordsContent : Option String
  h1 : List String
  h2 : List String
  h3 : List String
  imgs : List Img
  textContent : String
  structuredDataCount : Nat
deriving Repr

/-- The per-image record built by `analyze_page` (`src`, `alt`, `has_alt`). -/
structure ImageRec where
  src : String
  alt : String
  has_alt : Bool
deriving Repr, DecidableEq

/-- The `headings` sub-dictionary of the page data. -/
structure Headings where
  h1 : List String
  h2 : List String
  h3 : List String
deriving Repr, DecidableEq

/-- The dictionary returned by `analyze_page` (the PageAnalysis of the spec). -/
structure PageData where
  url : String
  title : Option String
  title_length : Nat
  meta_description : Option String
  meta_desc_length : Nat
  meta_keywords : Option String
  headings : Headings
  images : List ImageRec
  images_without_alt : Nat
  total_images : Nat
  keywords : List (String × Nat)
  word_count : Nat
  has_structured_data : Bool
  structured_data_count : Nat
deriving Repr, DecidableEq

/-- The image record for one `<img>`: `src` and `alt` default to `""` when
absent (`img.get('src', '')`), and `has_alt` is the truthiness of
`img.get('alt')` — true iff the attribute is present and non-empty. -/
def mkImageRec (im : Img) : ImageRec :=
  { src := im.srcAttr.getD ""
  , alt := im.altAttr.getD ""
  , has_alt := !pyFalsyOptStr im.altAttr }

/-- `SEOAnalyzer.analyze_page` after a successful fetch: the page-data
dictionary built from the parsed document. -/
def analyze_page (url : String) (d : Doc) : PageData :=
  let images := d.imgs.map mkImageRec
  { url := url
  , title := d.titleText
  , title_length := match d.titleText with | some t => t.length | none => 0
  , meta_description := d.metaDescContent
  , meta_desc_length := match d.metaDescContent with | some c => c.length | none => 0
  , meta_keywords := d.metaKeywordsContent
  , headings := { h1 := d.h1.map String.trim, h2 := d.h2.map String.trim, h3 := d.h3.map String.trim }
  , images := images
  , images_without_alt := (images.filter fun im => !im.has_alt).length
  , total_images := images.length
  , keywords := extract_keywords d.textContent 3 50
  , word_count := (pySplitWs d.textContent).length
  , has_structured_data := decide (0 < d.structuredDataCount)
  , structured_data_count := d.structuredDataCount }

/-- Title check of `generate_seo_issues`: missing (falsy value), too short
(< 30 chars), too long (> 60 chars), chained with `elif`. -/
def titleIssue (pd : PageData) : List String :=
  if pyFalsyOptStr pd.title then ["Missing title tag"]
  else if pd.title_length < 30 then
    ["Title too short (" ++ toString pd.title_length ++ " chars). Aim for 30-60 characters"]
  else if pd.title_length > 60 then
    ["Title too long (" ++ toString pd.title_length ++ " chars). Aim for 30-60 characters"]
  else []

/-- Meta description check of `generate_seo_issues` (missing / < 120 / > 160). -/
def metaIssue (pd : PageData) : List String :=
  if pyFalsyOptStr pd.meta_description then ["Missing meta description"]
  else if pd.meta_desc_length < 120 then
    ["Meta description too short (" ++ toString pd.meta_desc_length ++ " chars). Aim for 120-160 characters"]
  else if pd.meta_desc_length > 160 then
    ["Meta description too long (" ++ toString pd.meta_desc_length ++ " chars). Aim for 120-160 characters"]
  else []

/-- H1 check of `generate_seo_issues` (no H1 / more than one H1). -/
def h1Issue (pd : PageData) : List String :=
  if pd.headings.h1.isEmpty then ["Missing H1 tag"]
  else if pd.headings.h1.length > 1 then
    ["Multiple H1 tags (" ++ toString pd.headings.h1.length ++ "). Use only one H1 per page"]
  else []

/-- Alt-text check of `generate_seo_issues`. -/
def altIssue (pd : PageData) : List String :=
  if pd.images_without_alt > 0 then
    [toString pd.images_without_alt ++ " images missing alt text"]
  else []

/-- Word-count check of `generate_seo_issues`. -/
def wcIssue (pd : PageData) : List String :=
  if pd.word_count < 300 then
    ["Low word count (" ++ toString pd.word_count ++ "). Aim for at least 300 words"]
  else []

/-- Substring test: does `needle` occur at the head of `hay`? -/
def headMatches : List Char → List Char → Bool
  | [], _ => true
  | _ :: _, [] => false
  | a :: as, b :: bs => a == b && headMatches as bs

/-- Substring test over character lists (Python's `in` on strings). -/
def containsSub (needle : List Char) : List Char → Bool
  | [] => needle.isEmpty
  | c :: rest => headMatches needle (c :: rest) || containsSub needle rest

/-- Python `needle in hay` for strings. -/
def pyInStr (needle hay : String) : Bool := containsSub needle.toList hay.toList

/-- The fixed list of IT-consulting target keywords of `generate_seo_issues`. -/
def it_keywords : List String :=
  ["computer", "repair", "support", "network", "security", "managed", "services", "business", "wichita"]

/-- Structured-data recommendation of `generate_seo_issues`. -/
def structuredRec (pd : PageData) : List String :=
  if pd.has_structured_data then []
  else ["Add structured data (JSON-LD) for better search visibility"]

/-- Keyword-gap recommendation of `generate_seo_issues`: target terms not
occurring as substrings of the space-joined top-10 keyword terms; the first
five missing ones are listed. -/
def keywordRec (pd : PageData) : List String :=
  let found := (pd.keywords.take 10).map Prod.fst
  let joined := String.intercalate " " found
  let missing := it_keywords.filter fun kw => !pyInStr kw joined
  if missing.isEmpty then []
  else ["Consider adding IT-related keywords: " ++ String.intercalate ", " (missing.take 5)]

/-- `SEOAnalyzer.generate_seo_issues`: the issue list (five checks appended in
order) and the recommendation list. -/
def generate_seo_issues (pd : PageData) : List String × List String :=
  ( titleIssue pd ++ metaIssue pd ++ h1Issue pd ++ altIssue pd ++ wcIssue pd
  , structuredRec pd ++ keywordRec pd )

/-- The report dictionary returned by `generate_report`. -/
structure Report where
  score : Int
  issues : List String
  recommendations : List String
deriving Repr, DecidableEq

/-- The score computation of `generate_report`: start at 100, subtract 10 per
issue, floor at 0. -/
def reportScore (issueCount : Nat) : Int := max 0 (100 - 10 * (issueCount : Int))

/-- `SEOAnalyzer.generate_report` (its returned value; the printing side
effect is not modelled). -/
def generate_report (pd : PageData) : Report :=
  let p := generate_seo_issues pd
  { score := reportScore p.1.length
  , issues := p.1
  , recommendations := p.2 }

/-- Outcome of the HTTP GET in `fetch_page`: a decoded body, or a
`requests.RequestException` (transport error, timeout, or the non-2xx status
raised by `raise_for_status`) carrying its message. -/
inductive FetchOutcome where
  | success (body : String)
  | failure (errMsg : String)

/-- `SEOAnalyzer.fetch_page`: the body on success, `None` on any
`RequestException` (which is caught and reported). -/
def fetch_page : FetchOutcome → Option String
  | .success body => some body
  | .failure _ => none

/-- `analyze_page` as called from `main`, fetch included: `None` when the
fetch failed or returned a falsy (empty) body, otherwise the page data of the
parsed document. `parse` abstracts `BeautifulSoup(html, 'html.parser')`. -/
def analyze_page_run (u : String) (parse : String → Doc) (o : FetchOutcome) : Option PageData :=
  match fetch_page o with
  | none => none
  | some html => if html = "" then none else some (analyze_page u (parse html))

/-- The JSON artifact written by `main`: the `analysis_date` field (which the
source fills with the Python runtime version string, as a timestamp
substitute), the full page data, and the report. -/
structure Artifact where
  analysis_date : String
  page_data : PageData
  report : Report
deriving Repr, DecidableEq

/-- Observable outcome of one `main` run: the error messages printed and the
file written (name and content), if any. -/
structure RunResult where
  errorMessages : List String
  written : Option (String × Artifact)
deriving Repr

/-- The fixed relative output filename of `main`. -/
def outputFile : String := "seo_analysis.json"

/-- `main` on a given URL: on success the artifact is written to
`seo_analysis.json`; on failure an error is reported and nothing is written.
`sysVersion` is the `sys.version` string used for `analysis_date`. -/
def main_run (sysVersion u : String) (parse : String → Doc) (o : FetchOutcome) : RunResult :=
  let fetchMsgs : List String :=
    match o with
    | .failure e => ["Error fetching " ++ u ++ ": " ++ e]
    | .success _ => []
  match analyze_page_run u parse o with
  | some pd =>
    { errorMessages := fetchMsgs
    , written := some (outputFile,
        { analysis_date := sysVersion, page_data := pd, report := generate_report pd }) }
  | none =>
    { errorMessages := fetchMsgs ++ ["Failed to analyze the website. Check the URL and try again."]
    , written := none }

/-- JSON values, as the structured document `json.dump` serializes. Numbers in
the artifact are all integers, so only integer numbers are modelled. -/
inductive Json where
  | null
  | jbool (b : Bool)
  | jint (n : Int)
  | jstr (s : String)
  | jarr (items : List Json)
  | jobj (fields : List (String × Json))
deriving Repr

/-- Serialization of an optional string (`None` becomes JSON null). -/
def optStrJson : Option String → Json
  | none => .null
  | some s => .jstr s

/-- Serialization of the `headings` sub-dictionary. -/
def headingsJson (h : Headings) : Json :=
  .jobj [ ("h1", .jarr (h.h1.map .jstr))
        , ("h2", .jarr (h.h2.map .jstr))
        , ("h3", .jarr (h.h3.map .jstr)) ]

/-- Serialization of one image record. -/
def imageJson (im : ImageRec) : Json :=
  .jobj [("src", .jstr im.src), ("alt", .jstr im.alt), ("has_alt", .jbool im.has_alt)]

/-- Serialization of one keyword entry (a Python tuple becomes a JSON array). -/
def keywordJson (kw : String × Nat) : Json :=
  .jarr [.jstr kw.1, .jint kw.2]

/-- Serialization of the page data's field list, key for key as `analyze_page`
builds the dictionary. -/
def pageDataFieldsJson (pd : PageData) : List (String × Json) :=
  [ ("url", .jstr pd.url)
  , ("title", optStrJson pd.title)
  , ("title_length", .jint pd.title_length)
  , ("meta_description", optStrJson pd.meta_description)
  , ("meta_desc_length", .jint pd.meta_desc_length)
  , ("meta_keywords", optStrJson pd.meta_keywords)
  , ("headings", headingsJson pd.headings)
  , ("images", .jarr (pd.images.map imageJson))
  , ("images_without_alt", .jint pd.images_without_alt)
  , ("total_images", .jint pd.total_images)
  , ("keywords", .jarr (pd.keywords.map keywordJson))
  , ("word_count", .jint pd.word_count)
  , ("has_structured_data", .jbool pd.has_structured_data)
  , ("structured_data_count", .jint pd.structured_data_count) ]

/-- Serialization of the page data. -/
def pageDataJson (pd : PageData) : Json := .jobj (pageDataFieldsJson pd)

/-- Serialization of the report. -/
def reportJson (r : Report) : Json :=
  .jobj [ ("score", .jint r.score)
        , ("issues", .jarr (r.issues.map .jstr))
        , ("recommendations", .jarr (r.recommendations.map .jstr)) ]

/-- Serialization of the whole artifact written by `main`. -/
def artifactJson (a : Artifact) : Json :=
  .jobj [ ("analysis_date", .jstr a.analysis_date)
        , ("page_data", pageDataJson a.page_data)
        , ("report", reportJson a.report) ]

/-- Parse a string back. -/
def strOfJson : Json → Option String
  | .jstr s => some s
  | _ => none

/-- Parse an integer back. -/
def intOfJson : Json → Option Int
  | .jint n => some n
  | _ => none

/-- Parse a boolean back. -/
def boolOfJson : Json → Option Bool
  | .jbool b => some b
  | _ => none

/-- Parse an array's items back. -/
def arrOfJson : Json → Option (List Json)
  | .jarr xs => some xs
  | _ => none

/-- Parse an optional string back (null or string). -/
def optStrOfJson : Json → Option (Option String)
  | .null => some none
  | .jstr s => some (some s)
  | _ => none

/-- Parse a natural number back (an integer that must be non-negative). -/
def natOfJson (j : Json) : Option Nat :=
  (intOfJson j).bind fun n => if 0 ≤ n then some n.toNat else none

/-- Parse a list of strings back. -/
def strListOfJson : List Json → Option (List String)
  | [] => some []
  | j :: rest =>
    (strOfJson j).bind fun s =>
    (strListOfJson rest).map fun l => s :: l

/-- Parse one image record back. -/
def imageOfJson : Json → Option ImageRec
  | .jobj [("src", js), ("alt", ja), ("has_alt", jb)] =>
    (strOfJson js).bind fun s =>
    (strOfJson ja).bind fun a =>
    (boolOfJson jb).map fun b => ⟨s, a, b⟩
  | _ => none

/-- Parse a list of image records back. -/
def imagesOfJson : List Json → Option (List ImageRec)
  | [] => some []
  | j :: rest =>
    (imageOfJson j).bind fun im =>
    (imagesOfJson rest).map fun ims => im :: ims

/-- Parse one keyword entry back. -/
def keywordOfJson : Json → Option (String × Nat)
  | .jarr [jw, jc] =>
    (strOfJson jw).bind fun w =>
    (natOfJson jc).map fun n => (w, n)
  | _ => none

/-- Parse a list of keyword entries back. -/
def keywordsOfJson : List Json → Option (List (String × Nat))
  | [] => some []
  | j :: rest =>
    (keywordOfJson j).bind fun kw =>
    (keywordsOfJson rest).map fun kws => kw :: kws

/-- Parse the headings sub-dictionary back. -/
def headingsOfJson : Json → Option Headings
  | .jobj [("h1", j1), ("h2", j2), ("h3", j3)] =>
    (arrOfJson j1).bind fun a1 => (strListOfJson a1).bind fun l1 =>
    (arrOfJson j2).bind fun a2 => (strListOfJson a2).bind fun l2 =>
    (arrOfJson j3).bind fun a3 => (strListOfJson a3).map fun l3 => ⟨l1, l2, l3⟩
  | _ => none

/-- Look a key up in a JSON object's field list (first match). -/
def getField : List (String × Json) → String → Option Json
  | [], _ => none
  | (k, v) :: rest, key => if k = key then some v else getField rest key

/-- Parse the url, title, and title-length fields back. -/
def pageFieldsA (fs : List (String × Json)) : Option (String × Option String × Nat) :=
  (getField fs "url").bind fun ju => (strOfJson ju).bind fun u =>
  (getField fs "title").bind fun jt => (optStrOfJson jt).bind fun t =>
  (getField fs "title_length").bind fun jtl => (natOfJson jtl).map fun tl =>
  (u, t, tl)

/-- Parse the meta description, its length, and the meta keywords back. -/
def pageFieldsB (fs : List (String × Json)) : Option (Option String × Nat × Option String) :=
  (getField fs "meta_description").bind fun jm => (optStrOfJson jm).bind fun m =>
  (getField fs "meta_desc_length").bind fun jml => (natOfJson jml).bind fun ml =>
  (getField fs "meta_keywords").bind fun jmk => (optStrOfJson jmk).map fun mk =>
  (m, ml, mk)

/-- Parse the headings and images back. -/
def pageFieldsC (fs : List (String × Json)) : Option (Headings × List ImageRec) :=
  (getField fs "headings").bind fun jh => (headingsOfJson jh).bind fun hs =>
  (getField fs "images").bind fun ji => (arrOfJson ji).bind fun ia =>
  (imagesOfJson ia).map fun ims => (hs, ims)

/-- Parse the image counts and the keyword list back. -/
def pageFieldsD (fs : List (String × Json)) : Option (Nat × Nat × List (String × Nat)) :=
  (getField fs "images_without_alt").bind fun jiwa => (natOfJson jiwa).bind fun iwa =>
  (getField fs "total_images").bind fun jti => (natOfJson jti).bind fun ti =>
  (getField fs "keywords").bind fun jk => (arrOfJson jk).bind fun ka =>
  (keywordsOfJson ka).map fun kws => (iwa, ti, kws)

/-- Parse the word count and the structured-data fields back. -/
def pageFieldsE (fs : List (String × Json)) : Option (Nat × Bool × Nat) :=
  (getField fs "word_count").bind fun jwc => (natOfJson jwc).bind fun wc =>
  (getField fs "has_structured_data").bind fun jhsd => (boolOfJson jhsd).bind fun hsd =>
  (getField fs "structured_data_count").bind fun jsdc => (natOfJson jsdc).map fun sdc =>
  (wc, hsd, sdc)

/-- Parse the page data back from the artifact's `page_data` member. -/
def pageDataOfJson : Json → Option PageData
  | .jobj fs =>
    (pageFieldsA fs).bind fun a =>
    (pageFieldsB fs).bind fun b =>
    (pageFieldsC fs).bind fun c =>
    (pageFieldsD fs).bind fun d =>
    (pageFieldsE fs).map fun e =>
      { url := a.1, title := a.2.1, title_length := a.2.2
      , meta_description := b.1, meta_desc_length := b.2.1, meta_keywords := b.2.2
      , headings := c.1, images := c.2
      , images_without_alt := d.1, total_images := d.2.1, keywords := d.2.2
      , word_count := e.1, has_structured_data := e.2.1, structured_data_count := e.2.2 }
  | _ => none

/-- Parse the report back from the artifact's `report` member. -/
def reportOfJson : Json → Option Report
  | .jobj [("score", js), ("issues", ji), ("recommendations", jr)] =>
    (intOfJson js).bind fun s =>
    (arrOfJson ji).bind fun ia => (strListOfJson ia).bind fun is2 =>
    (arrOfJson jr).bind fun ra => (strListOfJson ra).map fun rs => ⟨s, is2, rs⟩
  | _ => none

/-- Parse the whole artifact back. -/
def artifactOfJson : Json → Option Artifact
  | .jobj [("analysis_date", jd), ("page_data", p), ("report", r)] =>
    (strOfJson jd).bind fun d =>
    (pageDataOfJson p).bind fun pd =>
    (reportOfJson r).map fun rep => ⟨d, pd, rep⟩
  | _ => none
end SEO

namespace SEO

/-- Concrete document for the end-to-end scenario of the spec: 25-character
title, no meta description, one H1, two images one of which lacks alt text,
250 words of prose, no JSON-LD blocks. -/
def doc3 : Doc :=
  { titleText := some "Home | IT Support Wichita"
  , metaDescContent := none
  , metaKeywordsContent := none
  , h1 := ["Welcome to IT Support"]
  , h2 := []
  , h3 := []
  , imgs := [ { srcAttr := some "logo.png", altAttr := some "Company logo" }
            , { srcAttr := some "banner.png", altAttr := none } ]
  , textContent := String.intercalate " " (List.replicate 250 "lorem")
  , structuredDataCount := 0 }

/-- The page data extracted for `doc3`. -/
def pd3 : PageData := analyze_page "https://example.com" doc3

/-- Small document used to instantiate universally quantified theorems:
a 29-character title, an empty meta description, one image without alt text. -/
def docW : Doc :=
  { titleText := some "abcdefghijklmnopqrstuvwxyzabc"
  , metaDescContent := some ""
  , metaKeywordsContent := none
  , h1 := ["Hello"]
  , h2 := []
  , h3 := []
  , imgs := [ { srcAttr := some "x.png", altAttr := none } ]
  , textContent := ""
  , structuredDataCount := 0 }

/-- Document whose title element is present with empty text and whose meta
description has an empty content attribute. -/
def docEmpty : Doc :=
  { titleText := some ""
  , metaDescContent := some ""
  , metaKeywordsContent := none
  , h1 := []
  , h2 := []
  , h3 := []
  , imgs := []
  , textContent := ""
  , structuredDataCount := 0 }

/-- Length of the chained title check is at most one. -/
theorem titleIssue_len (pd : PageData) : (titleIssue pd).length ≤ 1 := by
  unfold titleIssue
  repeat' split
  all_goals simp

/-- Length of the chained meta description check is at most one. -/
theorem metaIssue_len (pd : PageData) : (metaIssue pd).length ≤ 1 := by
  unfold metaIssue
  repeat' split
  all_goals simp

/-- Length of the chained H1 check is at most one. -/
theorem h1Issue_len (pd : PageData) : (h1Issue pd).length ≤ 1 := by
  unfold h1Issue
  repeat' split
  all_goals simp

/-- Length of the alt-text check is at most one. -/
theorem altIssue_len (pd : PageData) : (altIssue pd).length ≤ 1 := by
  unfold altIssue
  repeat' split
  all_goals simp

/-- Length of the word-count check is at most one. -/
theorem wcIssue_len (pd : PageData) : (wcIssue pd).length ≤ 1 := by
  unfold wcIssue
  repeat' split
  all_goals simp

/-- Counting helper: the images without alt text and those with alt text
together are all images. -/
theorem filter_alt_split (l : List ImageRec) :
    (l.filter fun im => !im.has_alt).length + (l.filter fun im => im.has_alt).length
      = l.length := by
  induction l with
  | nil => rfl
  | cons a t ih =>
    cases h : a.has_alt <;> simp [List.filter_cons, h] <;> omega

set_option maxRecDepth 100000 in
/-- C1 evaluation: with the pattern as the source compiles it (trailing
literal backspace), no token is found in ordinary text, so the keyword list
is empty; a match requires a backspace character after the letters. -/
theorem C1_code_extract_keywords_empty :
    extract_keywords "hello world hello" 3 50 = []
    ∧ findTokens 3 "hello world hello".toList = []
    ∧ findTokens 3 "hello\x08world".toList = ["hello\x08".toList] :=
  ⟨rfl, rfl, rfl⟩

/-- C2: the report score is `max 0 (100 − 10 × issue count)`, lies in
`[0, 100]`, is monotone non-increasing in the issue count, and is `0` from
ten issues on. -/
theorem C2_report_score (pd : PageData) :
    (generate_report pd).score = reportScore (generate_seo_issues pd).1.length
    ∧ (∀ n : Nat, 0 ≤ reportScore n ∧ reportScore n ≤ 100)
    ∧ (∀ j k : Nat, j ≤ k → reportScore k ≤ reportScore j)
    ∧ (∀ k : Nat, 10 ≤ k → reportScore k = 0) := by
  refine ⟨rfl, ?_, ?_, ?_⟩
  · intro n; unfold reportScore; constructor <;> omega
  · intro j k h; unfold reportScore; omega
  · intro k h; unfold reportScore; omega

/-- Witness instantiating the score characterization. -/
theorem C2_report_score_witness :
    (generate_report (analyze_page "u" docW)).score
      = reportScore (generate_seo_issues (analyze_page "u" docW)).1.length
    ∧ reportScore 7 ≤ reportScore 4
    ∧ reportScore 12 = 0 :=
  ⟨(C2_report_score (analyze_page "u" docW)).1,
   (C2_report_score (analyze_page "u" docW)).2.2.1 4 7 (by decide),
   (C2_report_score (analyze_page "u" docW)).2.2.2 12 (by decide)⟩

set_option maxRecDepth 100000 in
/-- C3 end-to-end scenario: title "Home | IT Support Wichita" (25 chars), no
meta description, one H1, two images one lacking alt text, 250 words, no
JSON-LD; exactly the four expected issues, score 60. -/
theorem C3_example_page :
    (generate_seo_issues pd3).1 =
      [ "Title too short (25 chars). Aim for 30-60 characters"
      , "Missing meta description"
      , "1 images missing alt text"
      , "Low word count (250). Aim for at least 300 words" ]
    ∧ (generate_report pd3).score = 60 :=
  ⟨rfl, rfl⟩

set_option maxRecDepth 100000 in
/-- C4 counterexample: a page whose title element is present with empty text
has a present title of length 0 (below 30), yet the engine reports
"Missing title tag", not the too-short issue. -/
theorem C4_counterexample :
    (analyze_page "u" docEmpty).title = some ""
    ∧ (analyze_page "u" docEmpty).title_length < 30
    ∧ "Title too short (0 chars). Aim for 30-60 characters"
        ∉ (generate_seo_issues (analyze_page "u" docEmpty)).1
    ∧ "Missing title tag" ∈ (generate_seo_issues (analyze_page "u" docEmpty)).1 := by
  refine ⟨by rfl, by decide, by decide, by decide⟩

/-- C4 (amended to non-empty titles, which is what the code's truthiness
check treats as present): in-range titles yield no title-length issue;
non-empty titles shorter than 30 yield the too-short issue with the actual
length; titles longer than 60 yield the too-long issue with the actual
length; markup without a title element yields an absent title, title length
0, and the missing-title issue. -/
theorem C4_title_length_rules (u : String) (d : Doc) (s : String) :
    (d.titleText = some s → 30 ≤ s.length → s.length ≤ 60 →
      titleIssue (analyze_page u d) = []
      ∧ (generate_seo_issues (analyze_page u d)).1
          = metaIssue (analyze_page u d) ++ h1Issue (analyze_page u d)
            ++ altIssue (analyze_page u d) ++ wcIssue (analyze_page u d))
    ∧ (d.titleText = some s → s ≠ "" → s.length < 30 →
      titleIssue (analyze_page u d)
        = ["Title too short (" ++ toString s.length ++ " chars). Aim for 30-60 characters"]
      ∧ ("Title too short (" ++ toString s.length ++ " chars). Aim for 30-60 characters")
          ∈ (generate_seo_issues (analyze_page u d)).1)
    ∧ (d.titleText = some s → 60 < s.length →
      titleIssue (analyze_page u d)
        = ["Title too long (" ++ toString s.length ++ " chars). Aim for 30-60 characters"]
      ∧ ("Title too long (" ++ toString s.length ++ " chars). Aim for 30-60 characters")
          ∈ (generate_seo_issues (analyze_page u d)).1)
    ∧ (d.titleText = none →
      (analyze_page u d).title = none
      ∧ (analyze_page u d).title_length = 0
      ∧ "Missing title tag" ∈ (generate_seo_issues (analyze_page u d)).1) := by
  refine ⟨?_, ?_, ?_, ?_⟩
  · intro h h30 h60
    have hs : s ≠ "" := by
      intro e; subst e; exact absurd h30 (by decide)
    have hti : titleIssue (analyze_page u d) = [] := by
      simp only [titleIssue, analyze_page, h, pyFalsyOptStr]
      rw [if_neg (by simp [hs]), if_neg (by omega), if_neg (by omega)]
    exact ⟨hti, by simp [generate_seo_issues, hti]⟩
  · intro h hs hlt
    have hti : titleIssue (analyze_page u d)
        = ["Title too short (" ++ toString s.length ++ " chars). Aim for 30-60 characters"] := by
      simp only [titleIssue, analyze_page, h, pyFalsyOptStr]
      rw [if_neg (by simp [hs]), if_pos hlt]
    exact ⟨hti, by simp [generate_seo_issues, hti]⟩
  · intro h hgt
    have hs : s ≠ "" := by
      intro e; subst e; exact absurd hgt (by decide)
    have hti : titleIssue (analyze_page u d)
        = ["Title too long (" ++ toString s.length ++ " chars). Aim for 30-60 characters"] := by
      simp only [titleIssue, analyze_page, h, pyFalsyOptStr]
      rw [if_neg (by simp [hs]), if_neg (by omega), if_pos (by omega)]
    exact ⟨hti, by simp [generate_seo_issues, hti]⟩
  · intro h
    have hti : titleIssue (analyze_page u d) = ["Missing title tag"] := by
      simp [titleIssue, analyze_page, h, pyFalsyOptStr]
    refine ⟨h, by simp [analyze_page, h], by simp [generate_seo_issues, hti]⟩

/-- Witness instantiating the too-short branch at a 29-character title. -/
theorem C4_title_length_rules_witness :
    titleIssue (analyze_page "u" docW)
      = ["Title too short (" ++ toString ("abcdefghijklmnopqrstuvwxyzabc").length
          ++ " chars). Aim for 30-60 characters"] :=
  ((C4_title_length_rules "u" docW "abcdefghijklmnopqrstuvwxyzabc").2.1 (by rfl)
    (by decide) (by decide)).1

/-- C5: the extracted image records keep all images; `has_alt` is true exactly
for a present, non-empty alt attribute; the without-alt count plus the
with-alt count is the total; the without-alt count is total minus with-alt;
and a positive without-alt count fires the alt-text issue carrying it. -/
theorem C5_images_alt_invariant (u : String) (d : Doc) :
    (analyze_page u d).images = d.imgs.map mkImageRec
    ∧ (∀ im : Img, (mkImageRec im).has_alt = true ↔ ∃ s, im.altAttr = some s ∧ s ≠ "")
    ∧ (analyze_page u d).images_without_alt
        + ((analyze_page u d).images.filter fun im => im.has_alt).length
      = (analyze_page u d).total_images
    ∧ (analyze_page u d).total_images = d.imgs.length
    ∧ (analyze_page u d).images_without_alt
      = d.imgs.length - ((analyze_page u d).images.filter fun im => im.has_alt).length
    ∧ (0 < (analyze_page u d).images_without_alt →
        (toString (analyze_page u d).images_without_alt ++ " images missing alt text")
          ∈ (generate_seo_issues (analyze_page u d)).1) := by
  have himgs : (analyze_page u d).images = d.imgs.map mkImageRec := rfl
  have hwo : (analyze_page u d).images_without_alt
      = ((d.imgs.map mkImageRec).filter fun im => !im.has_alt).length := rfl
  have htot : (analyze_page u d).total_images = (d.imgs.map mkImageRec).length := rfl
  have hsplit := filter_alt_split (d.imgs.map mkImageRec)
  have hm := List.length_map d.imgs mkImageRec
  refine ⟨himgs, ?_, ?_, ?_, ?_, ?_⟩
  · intro im
    cases h : im.altAttr with
    | none => simp [mkImageRec, pyFalsyOptStr, h]
    | some s => simp [mkImageRec, pyFalsyOptStr, h]
  · rw [himgs, hwo, htot]; omega
  · rw [htot]; exact hm
  · rw [himgs, hwo]; omega
  · intro h
    have hai : altIssue (analyze_page u d)
        = [toString (analyze_page u d).images_without_alt ++ " images missing alt text"] := by
      unfold altIssue
      rw [if_pos h]
    simp [generate_seo_issues, hai]

/-- Witness instantiating the image invariant on a one-image document. -/
theorem C5_images_alt_invariant_witness :
    (analyze_page "u" docW).images_without_alt
        + ((analyze_page "u" docW).images.filter fun im => im.has_alt).length
      = (analyze_page "u" docW).total_images
    ∧ (toString (analyze_page "u" docW).images_without_alt ++ " images missing alt text")
        ∈ (generate_seo_issues (analyze_page "u" docW)).1 :=
  ⟨(C5_images_alt_invariant "u" docW).2.2.1,
   (C5_images_alt_invariant "u" docW).2.2.2.2.2 (by decide)⟩

/-- C9: at most five issues are ever produced (each check is an `if`/`elif`
chain contributing at most one), so the score floor never binds and the score
is at least 50. -/
theorem C9_at_most_five_issues (pd : PageData) :
    (generate_seo_issues pd).1.length ≤ 5
    ∧ (generate_report pd).score = 100 - 10 * ((generate_seo_issues pd).1.length : Int)
    ∧ 50 ≤ (generate_report pd).score := by
  have h5 : (generate_seo_issues pd).1.length ≤ 5 := by
    have h1 := titleIssue_len pd
    have h2 := metaIssue_len pd
    have h3 := h1Issue_len pd
    have h4 := altIssue_len pd
    have hw := wcIssue_len pd
    simp only [generate_seo_issues, List.length_append]
    omega
  refine ⟨h5, ?_, ?_⟩
  · show reportScore (generate_seo_issues pd).1.length = _
    unfold reportScore; omega
  · show (50 : Int) ≤ reportScore (generate_seo_issues pd).1.length
    unfold reportScore; omega

/-- C10: a title element with empty text and a meta description with empty
content are treated as missing (truthiness), so the missing-tag issues fire
instead of the too-short ones. -/
theorem C10_empty_values_missing (u : String) (d : Doc) :
    (d.titleText = some "" → titleIssue (analyze_page u d) = ["Missing title tag"])
    ∧ (d.metaDescContent = some "" →
        metaIssue (analyze_page u d) = ["Missing meta description"]) := by
  constructor
  · intro h
    simp [titleIssue, analyze_page, h, pyFalsyOptStr]
  · intro h
    simp [metaIssue, analyze_page, h, pyFalsyOptStr]

/-- Witness instantiating the truthiness behaviour on empty title and meta. -/
theorem C10_empty_values_missing_witness :
    titleIssue (analyze_page "u" docEmpty) = ["Missing title tag"]
    ∧ metaIssue (analyze_page "u" docEmpty) = ["Missing meta description"] :=
  ⟨(C10_empty_values_missing "u" docEmpty).1 (by rfl),
   (C10_empty_values_missing "u" docEmpty).2 (by rfl)⟩


/-- C6: a failed fetch aborts the run — the fetch error is reported, nothing
is written — and every run either writes the full artifact (page data plus
its report) or writes nothing. -/
theorem C6_fetch_failure_no_artifact (v u e : String) (parse : String → Doc)
    (o : FetchOutcome) (h : o = .failure e) :
    (main_run v u parse o).written = none
    ∧ ("Error fetching " ++ u ++ ": " ++ e) ∈ (main_run v u parse o).errorMessages
    ∧ (∀ o2 : FetchOutcome, (main_run v u parse o2).written = none
        ∨ ∃ pd : PageData, (main_run v u parse o2).written
            = some (outputFile,
                { analysis_date := v, page_data := pd, report := generate_report pd })) := by
  subst h
  refine ⟨rfl, ?_, ?_⟩
  · simp [main_run, analyze_page_run, fetch_page]
  · intro o2
    cases o2 with
    | failure e2 => left; rfl
    | success body =>
      by_cases hb : body = ""
      · left; simp [main_run, analyze_page_run, fetch_page, hb]
      · right
        exact ⟨analyze_page u (parse body),
          by simp [main_run, analyze_page_run, fetch_page, hb]⟩

/-- Witness instantiating the failed fetch at a concrete error. -/
theorem C6_fetch_failure_no_artifact_witness :
    (main_run "v" "u" (fun _ => docW) (.failure "boom")).written = none
    ∧ ("Error fetching " ++ "u" ++ ": " ++ "boom")
        ∈ (main_run "v" "u" (fun _ => docW) (.failure "boom")).errorMessages :=
  ⟨(C6_fetch_failure_no_artifact "v" "u" "boom" (fun _ => docW) _ rfl).1,
   (C6_fetch_failure_no_artifact "v" "u" "boom" (fun _ => docW) _ rfl).2.1⟩

/-- C7: a successful run writes, to the fixed relative filename, the
structured artifact holding the analysis-date field, the full page data and
the report. -/
theorem C7_success_artifact (v u html : String) (parse : String → Doc) (h : html ≠ "") :
    (main_run v u parse (.success html)).written
      = some (outputFile,
          { analysis_date := v
          , page_data := analyze_page u (parse html)
          , report := generate_report (analyze_page u (parse html)) })
    ∧ outputFile = "seo_analysis.json"
    ∧ (main_run v u parse (.success html)).errorMessages = [] := by
  refine ⟨?_, rfl, ?_⟩
  · simp [main_run, analyze_page_run, fetch_page, h]
  · simp [main_run, analyze_page_run, fetch_page, h]

/-- Witness instantiating the successful run on a concrete body. -/
theorem C7_success_artifact_witness :
    (main_run "v" "u" (fun _ => docW) (.success "x")).written
      = some (outputFile,
          { analysis_date := "v"
          , page_data := analyze_page "u" docW
          , report := generate_report (analyze_page "u" docW) }) :=
  (C7_success_artifact "v" "u" "x" (fun _ => docW) (by decide)).1

/-- Roundtrip of optional strings through the artifact. -/
theorem optStr_roundtrip (o : Option String) : optStrOfJson (optStrJson o) = some o := by
  cases o <;> rfl

/-- Roundtrip of natural counts through the artifact. -/
theorem nat_roundtrip (n : Nat) : natOfJson (.jint (n : Int)) = some n := by
  simp [natOfJson, intOfJson]

/-- Roundtrip of string lists through the artifact. -/
theorem strList_roundtrip (l : List String) : strListOfJson (l.map .jstr) = some l := by
  induction l with
  | nil => rfl
  | cons a t ih => simp [strListOfJson, strOfJson, ih]

/-- Roundtrip of one image record. -/
theorem image_roundtrip (im : ImageRec) : imageOfJson (imageJson im) = some im := rfl

/-- Roundtrip of the image list. -/
theorem images_roundtrip (l : List ImageRec) : imagesOfJson (l.map imageJson) = some l := by
  induction l with
  | nil => rfl
  | cons a t ih => simp [imagesOfJson, image_roundtrip, ih]

/-- Roundtrip of one keyword entry. -/
theorem keyword_roundtrip (kw : String × Nat) : keywordOfJson (keywordJson kw) = some kw := by
  obtain ⟨w, c⟩ := kw
  simp [keywordJson, keywordOfJson, strOfJson, nat_roundtrip]

/-- Roundtrip of the keyword list. -/
theorem keywords_roundtrip (l : List (String × Nat)) :
    keywordsOfJson (l.map keywordJson) = some l := by
  induction l with
  | nil => rfl
  | cons a t ih => simp [keywordsOfJson, keyword_roundtrip, ih]

/-- Roundtrip of the headings dictionary. -/
theorem headings_roundtrip (h : Headings) : headingsOfJson (headingsJson h) = some h := by
  simp [headingsJson, headingsOfJson, arrOfJson, strList_roundtrip]

/-- Roundtrip of the first field group. -/
theorem pageFieldsA_roundtrip (pd : PageData) :
    pageFieldsA (pageDataFieldsJson pd) = some (pd.url, pd.title, pd.title_length) := by
  simp [pageFieldsA, pageDataFieldsJson, getField, strOfJson, optStr_roundtrip, nat_roundtrip]

/-- Roundtrip of the second field group. -/
theorem pageFieldsB_roundtrip (pd : PageData) :
    pageFieldsB (pageDataFieldsJson pd)
      = some (pd.meta_description, pd.meta_desc_length, pd.meta_keywords) := by
  simp [pageFieldsB, pageDataFieldsJson, getField, optStr_roundtrip, nat_roundtrip]

/-- Roundtrip of the third field group. -/
theorem pageFieldsC_roundtrip (pd : PageData) :
    pageFieldsC (pageDataFieldsJson pd) = some (pd.headings, pd.images) := by
  simp [pageFieldsC, pageDataFieldsJson, getField, arrOfJson, headings_roundtrip,
    images_roundtrip]

/-- Roundtrip of the fourth field group. -/
theorem pageFieldsD_roundtrip (pd : PageData) :
    pageFieldsD (pageDataFieldsJson pd)
      = some (pd.images_without_alt, pd.total_images, pd.keywords) := by
  simp [pageFieldsD, pageDataFieldsJson, getField, arrOfJson, nat_roundtrip,
    keywords_roundtrip]

/-- Roundtrip of the fifth field group. -/
theorem pageFieldsE_roundtrip (pd : PageData) :
    pageFieldsE (pageDataFieldsJson pd)
      = some (pd.word_count, pd.has_structured_data, pd.structured_data_count) := by
  simp [pageFieldsE, pageDataFieldsJson, getField, boolOfJson, nat_roundtrip]

/-- Roundtrip of the page data. -/
theorem pageData_roundtrip (pd : PageData) : pageDataOfJson (pageDataJson pd) = some pd := by
  simp only [pageDataJson, pageDataOfJson, pageFieldsA_roundtrip, pageFieldsB_roundtrip,
    pageFieldsC_roundtrip, pageFieldsD_roundtrip, pageFieldsE_roundtrip,
    Option.some_bind, Option.map_some']

/-- Roundtrip of the report. -/
theorem report_roundtrip (r : Report) : reportOfJson (reportJson r) = some r := by
  simp [reportJson, reportOfJson, intOfJson, arrOfJson, strList_roundtrip]

/-- C8: serializing the artifact (analysis date, page data, report) and
parsing it back restores every field of the in-memory values. -/
theorem C8_artifact_roundtrip (a : Artifact) : artifactOfJson (artifactJson a) = some a := by
  simp [artifactJson, artifactOfJson, strOfJson, pageData_roundtrip, report_roundtrip]

end SEO
